import Mathlib

/-!
Verification of the `srml/contract` module (src/srml/contract/src/lib.rs)
via a shallow embedding in Lean 4.

Machine integers are modelled as `Nat` with explicit `% 2 ^ 64` where the
source relies on wrapping arithmetic.  Storage maps are modelled as
association lists so that every definition is executable and decidable.

The companion modules `gas.rs`, `exec.rs`, `account_db.rs` and `wasm.rs` are
declared by `lib.rs` but their sources are not part of this repository
snapshot; the definitions that stand in for them carry a doc comment that
starts with `Modelled from the spec:` and are kept faithful to the
specification's description of their behaviour.
-/

namespace Contract

/-- Account identifiers (`T::AccountId`), modelled as naturals. -/
abbrev AccountId := Nat

/-- Balances (`T::Balance`), modelled as naturals. -/
abbrev Balance := Nat

/-- Gas amounts (`T::Gas`), modelled as naturals. -/
abbrev Gas := Nat

/-- Definition of the cost schedule and other parameterizations for the
wasm vm (struct `Schedule<Gas>` in lib.rs). -/
structure Schedule where
  version : Nat
  put_code_per_byte_cost : Gas
  grow_mem_cost : Gas
  regular_op_cost : Gas
  return_data_per_byte_cost : Gas
  sandbox_data_read_cost : Gas
  sandbox_data_write_cost : Gas
  max_stack_height : Nat
  max_memory_pages : Nat
deriving DecidableEq, Repr

/-- The `Default` impl for `Schedule` in lib.rs. -/
def Schedule.defaultSchedule : Schedule :=
  { version := 0
    put_code_per_byte_cost := 1
    grow_mem_cost := 1
    regular_op_cost := 1
    return_data_per_byte_cost := 1
    sandbox_data_read_cost := 1
    sandbox_data_write_cost := 1
    max_stack_height := 64 * 1024
    max_memory_pages := 16 }

/-- The events of the module (`decl_event!` in lib.rs). -/
inductive Event where
  | Transfer : AccountId → AccountId → Balance → Event
  | Instantiated : AccountId → AccountId → Event
  | CodeStored : Nat → Event
  | ScheduleUpdated : Nat → Event
  | Dispatched : AccountId → Bool → Event
deriving DecidableEq, Repr

/-- Information for managing an account and its sub trie abstraction
(struct `AccountInfo` in lib.rs). -/
structure AccountInfo where
  trie_id : List Nat
  current_mem_stored : Nat
deriving DecidableEq, Repr

/-- Association-list lookup, standing in for a storage `map` read. -/
def alookup {α β : Type} [DecidableEq α] (k : α) : List (α × β) → Option β
  | [] => none
  | (k1, v) :: rest => if k1 = k then some v else alookup k rest

/-- Association-list update, standing in for a storage `map` write. -/
def aset {α β : Type} [DecidableEq α] (k : α) (v : β) : List (α × β) → List (α × β)
  | [] => [(k, v)]
  | (k1, v1) :: rest => if k1 = k then (k, v) :: rest else (k1, v1) :: aset k v rest

/-- Association-list removal, standing in for a storage `map` remove. -/
def aremove {α β : Type} [DecidableEq α] (k : α) : List (α × β) → List (α × β)
  | [] => []
  | (k1, v1) :: rest => if k1 = k then aremove k rest else (k1, v1) :: aremove k rest

/-- The persisted state surface of the module (`decl_storage!` in lib.rs),
together with the external balances-module values that `Config::preload`
reads (existential deposit, creation fee, transfer fee) and the system
event list that `deposit_event` appends to.  Sub-storage tries
(`storage::child`) are modelled as an association list from `trie_id` to a
flat key/value list. -/
structure ModuleState where
  currentSchedule : Schedule
  contractFee : Balance
  callBaseFee : Gas
  createBaseFee : Gas
  gasPrice : Balance
  maxDepth : Nat
  existentialDeposit : Balance
  creationFee : Balance
  transferFee : Balance
  balances : List (AccountId × Balance)
  storage : List (Nat × Nat)
  codeStorage : List (Nat × List Nat)
  codeHashOf : List (AccountId × Nat)
  accountInfoOf : List (AccountId × AccountInfo)
  childTries : List (List Nat × List (Nat × Nat))
  events : List Event
deriving DecidableEq, Repr

/-- Read an account's spendable balance (default 0 for absent accounts). -/
def getBalance (s : ModuleState) (who : AccountId) : Balance :=
  (alookup who s.balances).getD 0

/-- Write an account's spendable balance. -/
def setBalanceSt (s : ModuleState) (who : AccountId) (b : Balance) : ModuleState :=
  { s with balances := aset who b s.balances }

/-- Deposit an event (`Self::deposit_event`). -/
def depositEvent (s : ModuleState) (e : Event) : ModuleState :=
  { s with events := s.events ++ [e] }

/-- `update_schedule` (lib.rs lines 234-243): rejects a schedule whose
version does not strictly exceed the stored one; otherwise deposits
`ScheduleUpdated` and replaces the stored schedule.  The result pairs the
post-state with the dispatch `Result`. -/
def update_schedule (s : ModuleState) (schedule : Schedule) :
    ModuleState × Except String Unit :=
  if s.currentSchedule.version ≥ schedule.version then
    (s, Except.error "new schedule must have a greater version than current")
  else
    ({ (depositEvent s (Event.ScheduleUpdated schedule.version)) with
        currentSchedule := schedule },
     Except.ok ())

/-- In-memory cache of configuration values (struct `Config<T>` in lib.rs). -/
structure Config where
  schedule : Schedule
  existential_deposit : Balance
  max_depth : Nat
  contract_account_instantiate_fee : Balance
  account_create_fee : Balance
  transfer_fee : Balance
  call_base_fee : Gas
  instantiate_base_fee : Gas
deriving DecidableEq, Repr

/-- `Config::preload()` (lib.rs lines 461-472): reads every configuration
value from the current storage into an immutable snapshot. -/
def Config.preload (s : ModuleState) : Config :=
  { schedule := s.currentSchedule
    existential_deposit := s.existentialDeposit
    max_depth := s.maxDepth
    contract_account_instantiate_fee := s.contractFee
    account_create_fee := s.creationFee
    transfer_fee := s.transferFee
    call_base_fee := s.callBaseFee
    instantiate_base_fee := s.createBaseFee }

/-- Modelled from the spec: the state after a successful `gas::buy_gas`
(gas.rs is not part of this snapshot).  The purchase withdraws
`gas_limit * gas_price` from the payer's spendable balance and is the
first state mutation of every top-level operation. -/
def buyGasState (s : ModuleState) (origin : AccountId) (gas_limit : Gas) : ModuleState :=
  setBalanceSt s origin (getBalance s origin - gas_limit * s.gasPrice)

/-- Modelled from the spec: the observable outcome of the root-frame
execution performed by `ExecutionContext` (exec.rs is not part of this
snapshot).  It carries the root result, the overlay change set accumulated
by the top-level context, the buffered events, the deferred external
dispatches recorded as `(who, dispatch succeeded)` pairs, and the gas the
meter consumed. -/
structure ExecOutcome where
  result : Except String Unit
  changeSet : List (Nat × Nat)
  events : List Event
  calls : List (AccountId × Bool)
  gasConsumed : Gas
deriving Repr

/-- Modelled from the spec: on root-frame failure the `ExecutionContext`
discards the root frame's buffers, so the top-level context's change set,
event buffer and deferred-dispatch buffer are all empty ("Only on overall
root success are ..." / the failing subtree is discarded). -/
def ExecOutcome.rollbackOnFailure (o : ExecOutcome) : Prop :=
  (∀ e, o.result = Except.error e → o.changeSet = [] ∧ o.events = [] ∧ o.calls = [])

/-- Modelled from the spec: `DirectAccountDb.commit` applies an overlay
change set to persistent storage, write by write, atomically from the
caller's point of view (account_db.rs is not part of this snapshot). -/
def commitChangeSet (st : List (Nat × Nat)) (cs : List (Nat × Nat)) : List (Nat × Nat) :=
  cs.foldl (fun acc kv => aset kv.1 kv.2 acc) st

/-- One observable state-mutating step of a top-level operation, recorded
in the order the dispatcher performs them. -/
inductive Action where
  | withdrawGasCost : AccountId → Balance → Action
  | commit : List (Nat × Nat) → Action
  | deposit : Event → Action
  | storeCode : Nat → Action
  | refund : AccountId → Balance → Action
  | dispatched : AccountId → Bool → Action
deriving DecidableEq, Repr

/-- Whether an action is the overlay commit. -/
def Action.isCommit : Action → Bool
  | Action.commit _ => true
  | _ => false

/-- Whether an action deposits a buffered event. -/
def Action.isDeposit : Action → Bool
  | Action.deposit _ => true
  | _ => false

/-- Whether an action is the unused-gas refund. -/
def Action.isRefund : Action → Bool
  | Action.refund _ _ => true
  | _ => false

/-- Whether an action executes a deferred external dispatch. -/
def Action.isDispatched : Action → Bool
  | Action.dispatched _ _ => true
  | _ => false

/-- Result of one embedded top-level operation: the post-state, the trace
of state-mutating steps in execution order, the `Config` snapshot taken by
the operation (if it got that far), and the dispatch `Result`. -/
structure CallOutput where
  state : ModuleState
  trace : List Action
  usedConfig : Option Config
  result : Except String Unit
deriving Repr

/-- Common tail of `call` and `create` (lib.rs lines 288-317 and 343-371)
once gas has been bought: on a root `Ok` commit the overlay change set and
deposit the buffered events, in order; unconditionally refund the unused
gas `(gas_limit - consumed) * gas_price` after that; then run every
recorded deferred dispatch, each depositing a `Dispatched` event. -/
def mkCallOutcome (s : ModuleState) (origin : AccountId) (gas_limit : Gas)
    (o : ExecOutcome) : CallOutput :=
  let s1 := buyGasState s origin gas_limit
  let cfg := Config.preload s1
  let refund_amount := (gas_limit - o.gasConsumed) * s.gasPrice
  match o.result with
  | Except.ok _ =>
    let s2 := { s1 with storage := commitChangeSet s1.storage o.changeSet,
                        events := s1.events ++ o.events }
    let s3 := setBalanceSt s2 origin (getBalance s2 origin + refund_amount)
    { state := { s3 with
        events := s3.events ++ o.calls.map (fun wc => Event.Dispatched wc.1 wc.2) }
      trace := [Action.withdrawGasCost origin (gas_limit * s.gasPrice)]
        ++ (Action.commit o.changeSet :: o.events.map Action.deposit)
        ++ [Action.refund origin refund_amount]
        ++ o.calls.map (fun wc => Action.dispatched wc.1 wc.2)
      usedConfig := some cfg
      result := Except.ok () }
  | Except.error e =>
    let s3 := setBalanceSt s1 origin (getBalance s1 origin + refund_amount)
    { state := { s3 with
        events := s3.events ++ o.calls.map (fun wc => Event.Dispatched wc.1 wc.2) }
      trace := [Action.withdrawGasCost origin (gas_limit * s.gasPrice)]
        ++ [Action.refund origin refund_amount]
        ++ o.calls.map (fun wc => Action.dispatched wc.1 wc.2)
      usedConfig := some cfg
      result := Except.error e }

/-- `call` (lib.rs lines 274-318): pay for the gas upfront (failing with
`InsufficientBalance`, modelled from the spec's error taxonomy, when the
origin cannot cover `gas_limit * gas_price`), snapshot the configuration,
run the root frame (`ctx.call`, abstracted by `execFn` since exec.rs is
not part of this snapshot), then commit/deposit on root success, refund
after the commit, and execute the recorded deferred dispatches. -/
def contractCall (s : ModuleState) (origin dest : AccountId) (value : Balance)
    (gas_limit : Gas) (data : List Nat)
    (execFn : Config → AccountId → Balance → List Nat → ExecOutcome) : CallOutput :=
  if getBalance s origin < gas_limit * s.gasPrice then
    { state := s, trace := [], usedConfig := none,
      result := Except.error "InsufficientBalance" }
  else
    mkCallOutcome s origin gas_limit
      (execFn (Config.preload (buyGasState s origin gas_limit)) dest value data)

/-- `create` (lib.rs lines 330-372): identical orchestration to `call`,
with the root frame running `ctx.instantiate` (abstracted by `execFn`)
on `(endowment, code_hash, data)`. -/
def contractCreate (s : ModuleState) (origin : AccountId) (endowment : Balance)
    (gas_limit : Gas) (code_hash : Nat) (data : List Nat)
    (execFn : Config → Balance → Nat → List Nat → ExecOutcome) : CallOutput :=
  if getBalance s origin < gas_limit * s.gasPrice then
    { state := s, trace := [], usedConfig := none,
      result := Except.error "InsufficientBalance" }
  else
    mkCallOutcome s origin gas_limit
      (execFn (Config.preload (buyGasState s origin gas_limit)) endowment code_hash data)

/-- Modelled from the spec: the observable outcome of `wasm::save_code`
(wasm.rs is not part of this snapshot): either the content hash of the
validated, instrumented and persisted code, or a validation/charge error;
plus the gas the save charged. -/
structure SaveOutcome where
  result : Except String Nat
  gasConsumed : Gas
deriving Repr

/-- `put_code` (lib.rs lines 247-265): read the current schedule, pay for
the gas upfront, run `wasm::save_code` (abstracted by `saveFn`), deposit
`CodeStored` only on success, and refund the unused gas unconditionally
before returning the save result. -/
def put_code (s : ModuleState) (origin : AccountId) (gas_limit : Gas)
    (code : List Nat) (saveFn : Schedule → SaveOutcome) : CallOutput :=
  let schedule := s.currentSchedule
  if getBalance s origin < gas_limit * s.gasPrice then
    { state := s, trace := [], usedConfig := none,
      result := Except.error "InsufficientBalance" }
  else
    let s1 := buyGasState s origin gas_limit
    let o := saveFn schedule
    let refund_amount := (gas_limit - o.gasConsumed) * s.gasPrice
    match o.result with
    | Except.ok h =>
      let s2 := { s1 with codeStorage := aset h code s1.codeStorage,
                          events := s1.events ++ [Event.CodeStored h] }
      { state := setBalanceSt s2 origin (getBalance s2 origin + refund_amount)
        trace := [Action.withdrawGasCost origin (gas_limit * s.gasPrice),
          Action.storeCode h, Action.deposit (Event.CodeStored h),
          Action.refund origin refund_amount]
        usedConfig := none
        result := Except.ok () }
    | Except.error e =>
      { state := setBalanceSt s1 origin (getBalance s1 origin + refund_amount)
        trace := [Action.withdrawGasCost origin (gas_limit * s.gasPrice),
          Action.refund origin refund_amount]
        usedConfig := none
        result := Except.error e }

/-- Little-endian byte encoding of a `u64` (`new_seed.to_le_bytes()` in
lib.rs line 161); the eight bytes of `n` taken modulo `2 ^ 64`. -/
def toLEBytes8 (n : Nat) : List Nat :=
  [n % 256, n / 256 % 256, n / 65536 % 256, n / 16777216 % 256,
   n / 4294967296 % 256, n / 1099511627776 % 256,
   n / 281474976710656 % 256, n / 72057594037927936 % 256]

/-- Recover a number from its eight little-endian bytes. -/
def fromLEBytes8 (l : List Nat) : Nat :=
  l.foldr (fun b acc => b + 256 * acc) 0

/-- The hash pre-image built by `TrieIdFromParentCounter::trie_id`
(lib.rs lines 159-161): `account_id` bytes followed by the LE bytes of
the new seed. -/
def trieIdBuf (account_id : List Nat) (seed : Nat) : List Nat :=
  account_id ++ toLEBytes8 seed

/-- `<AccountCounter<T>>::mutate(|v| v.wrapping_add(1))` (lib.rs line
157): the persisted u64 counter is bumped with wrap-around, and the new
value is used as the seed. -/
def nextCounter (c : Nat) : Nat := (c + 1) % 2 ^ 64

/-- `TrieIdFromParentCounter::trie_id` (lib.rs lines 154-163): bump the
persisted counter, append its LE bytes to the account id, hash the
buffer.  Returns the trie id together with the new persisted counter; the
hash (`T::Hashing`) is external and abstracted as `hashFn`. -/
def trie_id (hashFn : List Nat → List Nat) (account_id : List Nat)
    (counter : Nat) : List Nat × Nat :=
  let new_seed := nextCounter counter
  (hashFn (trieIdBuf account_id new_seed), new_seed)

/-- The persisted counter after `n` invocations of the generator starting
from value `c`. -/
def counterAfter (c : Nat) : Nat → Nat
  | 0 => c
  | n + 1 => nextCounter (counterAfter c n)

/-- The trie id returned by the k-th invocation (k ≥ 1) of the generator
from starting counter `c0`, generating for account `account_id`. -/
def trieIdAt (hashFn : List Nat → List Nat) (account_id : List Nat)
    (c0 k : Nat) : List Nat :=
  (trie_id hashFn account_id (counterAfter c0 (k - 1))).1

theorem counterAfter_eq (c : Nat) (hc : c < 2 ^ 64) :
    ∀ n, counterAfter c n = (c + n) % 2 ^ 64 := by
  intro n
  induction n with
  | zero =>
    show c = (c + 0) % 2 ^ 64
    omega
  | succ n ih =>
    show nextCounter (counterAfter c n) = (c + (n + 1)) % 2 ^ 64
    rw [ih, nextCounter, Nat.mod_add_mod]
    omega

theorem fromLE_toLE (n : Nat) : fromLEBytes8 (toLEBytes8 n) = n % 2 ^ 64 := by
  simp only [toLEBytes8, fromLEBytes8, List.foldr]
  omega

theorem toLEBytes8_inj (m n : Nat) (hm : m < 2 ^ 64) (hn : n < 2 ^ 64)
    (h : toLEBytes8 m = toLEBytes8 n) : m = n := by
  have h2 := congrArg fromLEBytes8 h
  rw [fromLE_toLE, fromLE_toLE, Nat.mod_eq_of_lt hm, Nat.mod_eq_of_lt hn] at h2
  exact h2

theorem trieIdBuf_inj (a1 a2 : List Nat) (s1 s2 : Nat)
    (h : trieIdBuf a1 s1 = trieIdBuf a2 s2) :
    a1 = a2 ∧ toLEBytes8 s1 = toLEBytes8 s2 :=
  List.append_inj' h rfl

/-- `SimpleAddressDeterminator::contract_address_for` (lib.rs lines
202-211): hash of `code_hash ++ hash(data) ++ origin`, with the
collision-resistant hash (`T::Hashing`) abstracted as `hashFn` and byte
strings as `List Nat`. -/
def contract_address_for (hashFn : List Nat → List Nat)
    (code_hash : List Nat) (data : List Nat) (origin : List Nat) : List Nat :=
  let data_hash := hashFn data
  hashFn (code_hash ++ data_hash ++ origin)

/-- Modelled from the spec: `DirectAccountDb::get_account_info` is a
read-through of the `AccountInfoOf` storage map (account_db.rs is not
part of this snapshot). -/
def get_account_info (s : ModuleState) (who : AccountId) : Option AccountInfo :=
  alookup who s.accountInfoOf

/-- `on_free_balance_zero` (lib.rs lines 437-442): remove the account's
`CodeHashOf` entry, and, when the account has an `AccountInfo`, kill the
sub-storage trie named by its `trie_id` (`child::kill_storage`, modelled
as removal of the whole child trie). -/
def on_free_balance_zero (s : ModuleState) (who : AccountId) : ModuleState :=
  let s1 := { s with codeHashOf := aremove who s.codeHashOf }
  match get_account_info s1 who with
  | some subtrie => { s1 with childTries := aremove subtrie.trie_id s1.childTries }
  | none => s1

theorem alookup_aremove {α β : Type} [DecidableEq α] (k : α) (l : List (α × β)) :
    alookup k (aremove k l) = none := by
  induction l with
  | nil => rfl
  | cons x xs ih =>
    obtain ⟨k1, v1⟩ := x
    by_cases h : k1 = k <;> simp [aremove, alookup, h, ih]

/-- A concrete state with the storage defaults of `decl_storage!`
(ContractFee 21, CallBaseFee 135, CreateBaseFee 175, GasPrice 1, MaxDepth
100, default schedule), used by witnesses. -/
def baseState : ModuleState :=
  { currentSchedule := Schedule.defaultSchedule
    contractFee := 21
    callBaseFee := 135
    createBaseFee := 175
    gasPrice := 1
    maxDepth := 100
    existentialDeposit := 0
    creationFee := 0
    transferFee := 0
    balances := [(0, 1000)]
    storage := []
    codeStorage := []
    codeHashOf := []
    accountInfoOf := []
    childTries := []
    events := [] }

/-- An execution outcome whose root frame succeeded, with one overlay
write, one buffered event, one deferred dispatch, and 3 gas consumed. -/
def exExecOk : ExecOutcome :=
  { result := Except.ok ()
    changeSet := [(1, 2)]
    events := [Event.Transfer 0 1 5]
    calls := [(1, true)]
    gasConsumed := 3 }

/-- An execution outcome whose root frame failed; its buffers were
discarded by the execution context. -/
def exExecErr : ExecOutcome :=
  { result := Except.error "frame failed"
    changeSet := []
    events := []
    calls := []
    gasConsumed := 4 }

/-- A constant root-frame executor for `call`, used by witnesses. -/
def exExecFnOk : Config → AccountId → Balance → List Nat → ExecOutcome :=
  fun _ _ _ _ => exExecOk

/-- A constant failing root-frame executor for `call`. -/
def exExecFnErr : Config → AccountId → Balance → List Nat → ExecOutcome :=
  fun _ _ _ _ => exExecErr

/-- A constant root-frame executor for `create`, used by witnesses. -/
def exInstFnOk : Config → Balance → Nat → List Nat → ExecOutcome :=
  fun _ _ _ _ => exExecOk

/-- A constant failing root-frame executor for `create`. -/
def exInstFnErr : Config → Balance → Nat → List Nat → ExecOutcome :=
  fun _ _ _ _ => exExecErr

/-- A successful `save_code` outcome: hash 9, 2 gas consumed. -/
def exSaveOk : SaveOutcome :=
  { result := Except.ok 9, gasConsumed := 2 }

/-- A failing `save_code` outcome (invalid bytecode), 2 gas consumed. -/
def exSaveErr : SaveOutcome :=
  { result := Except.error "invalid code", gasConsumed := 2 }

/-- A constant save function returning `exSaveOk`. -/
def exSaveFnOk : Schedule → SaveOutcome := fun _ => exSaveOk

/-- A constant save function returning `exSaveErr`. -/
def exSaveFnErr : Schedule → SaveOutcome := fun _ => exSaveErr

theorem filter_map_all {α : Type} (p : Action → Bool) (f : α → Action)
    (hp : ∀ a, p (f a) = true) (l : List α) :
    (l.map f).filter p = l.map f := by
  induction l with
  | nil => rfl
  | cons x xs ih => simp [hp, ih]

theorem filter_map_none {α : Type} (p : Action → Bool) (f : α → Action)
    (hp : ∀ a, p (f a) = false) (l : List α) :
    (l.map f).filter p = [] := by
  induction l with
  | nil => rfl
  | cons x xs ih => simp [hp, ih]

@[simp] theorem isCommit_withdraw (a : AccountId) (b : Balance) :
    (Action.withdrawGasCost a b).isCommit = false := rfl

@[simp] theorem isCommit_commit (cs : List (Nat × Nat)) :
    (Action.commit cs).isCommit = true := rfl

@[simp] theorem isCommit_deposit (e : Event) :
    (Action.deposit e).isCommit = false := rfl

@[simp] theorem isCommit_storeCode (h : Nat) :
    (Action.storeCode h).isCommit = false := rfl

@[simp] theorem isCommit_refund (a : AccountId) (b : Balance) :
    (Action.refund a b).isCommit = false := rfl

@[simp] theorem isCommit_dispatched (a : AccountId) (b : Bool) :
    (Action.dispatched a b).isCommit = false := rfl

@[simp] theorem isDeposit_withdraw (a : AccountId) (b : Balance) :
    (Action.withdrawGasCost a b).isDeposit = false := rfl

@[simp] theorem isDeposit_commit (cs : List (Nat × Nat)) :
    (Action.commit cs).isDeposit = false := rfl

@[simp] theorem isDeposit_deposit (e : Event) :
    (Action.deposit e).isDeposit = true := rfl

@[simp] theorem isDeposit_storeCode (h : Nat) :
    (Action.storeCode h).isDeposit = false := rfl

@[simp] theorem isDeposit_refund (a : AccountId) (b : Balance) :
    (Action.refund a b).isDeposit = false := rfl

@[simp] theorem isDeposit_dispatched (a : AccountId) (b : Bool) :
    (Action.dispatched a b).isDeposit = false := rfl

@[simp] theorem isRefund_withdraw (a : AccountId) (b : Balance) :
    (Action.withdrawGasCost a b).isRefund = false := rfl

@[simp] theorem isRefund_commit (cs : List (Nat × Nat)) :
    (Action.commit cs).isRefund = false := rfl

@[simp] theorem isRefund_deposit (e : Event) :
    (Action.deposit e).isRefund = false := rfl

@[simp] theorem isRefund_storeCode (h : Nat) :
    (Action.storeCode h).isRefund = false := rfl

@[simp] theorem isRefund_refund (a : AccountId) (b : Balance) :
    (Action.refund a b).isRefund = true := rfl

@[simp] theorem isRefund_dispatched (a : AccountId) (b : Bool) :
    (Action.dispatched a b).isRefund = false := rfl

@[simp] theorem isDispatched_withdraw (a : AccountId) (b : Balance) :
    (Action.withdrawGasCost a b).isDispatched = false := rfl

@[simp] theorem isDispatched_commit (cs : List (Nat × Nat)) :
    (Action.commit cs).isDispatched = false := rfl

@[simp] theorem isDispatched_deposit (e : Event) :
    (Action.deposit e).isDispatched = false := rfl

@[simp] theorem isDispatched_storeCode (h : Nat) :
    (Action.storeCode h).isDispatched = false := rfl

@[simp] theorem isDispatched_refund (a : AccountId) (b : Balance) :
    (Action.refund a b).isDispatched = false := rfl

@[simp] theorem isDispatched_dispatched (a : AccountId) (b : Bool) :
    (Action.dispatched a b).isDispatched = true := rfl

@[simp] theorem filter_commit_depositMap (l : List Event) :
    (l.map Action.deposit).filter Action.isCommit = [] :=
  filter_map_none _ _ (fun _ => rfl) l

@[simp] theorem filter_deposit_depositMap (l : List Event) :
    (l.map Action.deposit).filter Action.isDeposit = l.map Action.deposit :=
  filter_map_all _ _ (fun _ => rfl) l

@[simp] theorem filter_refund_depositMap (l : List Event) :
    (l.map Action.deposit).filter Action.isRefund = [] :=
  filter_map_none _ _ (fun _ => rfl) l

@[simp] theorem filter_dispatched_depositMap (l : List Event) :
    (l.map Action.deposit).filter Action.isDispatched = [] :=
  filter_map_none _ _ (fun _ => rfl) l

@[simp] theorem filter_commit_dispatchMap (l : List (AccountId × Bool)) :
    (l.map (fun wc : AccountId × Bool => Action.dispatched wc.1 wc.2)).filter
      Action.isCommit = [] :=
  filter_map_none _ _ (fun _ => rfl) l

@[simp] theorem filter_deposit_dispatchMap (l : List (AccountId × Bool)) :
    (l.map (fun wc : AccountId × Bool => Action.dispatched wc.1 wc.2)).filter
      Action.isDeposit = [] :=
  filter_map_none _ _ (fun _ => rfl) l

@[simp] theorem filter_refund_dispatchMap (l : List (AccountId × Bool)) :
    (l.map (fun wc : AccountId × Bool => Action.dispatched wc.1 wc.2)).filter
      Action.isRefund = [] :=
  filter_map_none _ _ (fun _ => rfl) l

@[simp] theorem filter_dispatched_dispatchMap (l : List (AccountId × Bool)) :
    (l.map (fun wc : AccountId × Bool => Action.dispatched wc.1 wc.2)).filter
      Action.isDispatched
      = l.map (fun wc : AccountId × Bool => Action.dispatched wc.1 wc.2) :=
  filter_map_all _ _ (fun _ => rfl) l

end Contract

namespace Contract

/-- C3: `update_schedule(new_schedule)` succeeds iff `new_schedule.version`
strictly exceeds the stored version; on success the stored schedule is
replaced and a `ScheduleUpdated` event carrying the new version is
appended; on rejection the whole state (in particular the stored schedule)
is untouched; hence on success the stored version strictly increases. -/
theorem update_schedule_spec (s : ModuleState) (schedule : Schedule) :
    ((update_schedule s schedule).2 = Except.ok () ↔
        s.currentSchedule.version < schedule.version)
    ∧ ((update_schedule s schedule).2 = Except.ok () →
        (update_schedule s schedule).1.currentSchedule = schedule
        ∧ (update_schedule s schedule).1.events
            = s.events ++ [Event.ScheduleUpdated schedule.version]
        ∧ s.currentSchedule.version
            < (update_schedule s schedule).1.currentSchedule.version)
    ∧ (¬ (update_schedule s schedule).2 = Except.ok () →
        (update_schedule s schedule).1 = s) := by
  unfold update_schedule
  by_cases h : s.currentSchedule.version ≥ schedule.version
  · simp [h]
  · simp [h, depositEvent]
    omega

/-- A state whose account 0 has no balance, used by witnesses for the
insufficient-balance branch. -/
def poorState : ModuleState :=
  { baseState with balances := [] }

/-- The default schedule bumped to version 1, used by witnesses. -/
def exSchedule1 : Schedule :=
  { Schedule.defaultSchedule with version := 1 }

/-- Witness for C3: a concrete schedule update from version 0 to version 1
is accepted, replaces the schedule, appends the event, and increases the
version. -/
theorem update_schedule_spec_witness :
    ((update_schedule baseState exSchedule1).2 = Except.ok () ↔
      baseState.currentSchedule.version < exSchedule1.version)
    ∧ (update_schedule baseState exSchedule1).1.currentSchedule = exSchedule1 :=
  ⟨(update_schedule_spec baseState exSchedule1).1,
   ((update_schedule_spec baseState exSchedule1).2.1 rfl).1⟩

/-- The property claimed by C1, for a top-level `call` with root outcome
`oc` and a top-level `create` with root outcome `oi`: a root error commits
nothing to persistent storage and deposits none of the buffered events; a
root `Ok` commits the full change set and deposits all buffered events in
their generation order. -/
def AtomicCommitP (s : ModuleState) (origin dest : AccountId)
    (value endowment : Balance) (gas_limit : Gas) (data : List Nat)
    (code_hash : Nat)
    (execC : Config → AccountId → Balance → List Nat → ExecOutcome)
    (execI : Config → Balance → Nat → List Nat → ExecOutcome)
    (oc oi : ExecOutcome) : Prop :=
  (∀ e, oc.result = Except.error e →
      (contractCall s origin dest value gas_limit data execC).state.storage = s.storage
      ∧ (contractCall s origin dest value gas_limit data execC).trace.filter Action.isCommit = []
      ∧ (contractCall s origin dest value gas_limit data execC).trace.filter Action.isDeposit = [])
  ∧ (oc.result = Except.ok () →
      (contractCall s origin dest value gas_limit data execC).state.storage
          = commitChangeSet s.storage oc.changeSet
      ∧ (contractCall s origin dest value gas_limit data execC).trace.filter Action.isCommit
          = [Action.commit oc.changeSet]
      ∧ (contractCall s origin dest value gas_limit data execC).trace.filter Action.isDeposit
          = oc.events.map Action.deposit
      ∧ (contractCall s origin dest value gas_limit data execC).state.events
          = s.events ++ oc.events ++ oc.calls.map (fun wc => Event.Dispatched wc.1 wc.2))
  ∧ (∀ e, oi.result = Except.error e →
      (contractCreate s origin endowment gas_limit code_hash data execI).state.storage = s.storage
      ∧ (contractCreate s origin endowment gas_limit code_hash data execI).trace.filter Action.isCommit = []
      ∧ (contractCreate s origin endowment gas_limit code_hash data execI).trace.filter Action.isDeposit = [])
  ∧ (oi.result = Except.ok () →
      (contractCreate s origin endowment gas_limit code_hash data execI).state.storage
          = commitChangeSet s.storage oi.changeSet
      ∧ (contractCreate s origin endowment gas_limit code_hash data execI).trace.filter Action.isCommit
          = [Action.commit oi.changeSet]
      ∧ (contractCreate s origin endowment gas_limit code_hash data execI).trace.filter Action.isDeposit
          = oi.events.map Action.deposit
      ∧ (contractCreate s origin endowment gas_limit code_hash data execI).state.events
          = s.events ++ oi.events ++ oi.calls.map (fun wc => Event.Dispatched wc.1 wc.2))

/-- C1: for every top-level `call` or `create` whose gas purchase
succeeded, a root-frame error prevents any overlay commit and any deposit
of buffered events, while a root-frame `Ok` commits the full overlay
change set to persistent storage and deposits all buffered events in
generation order. -/
theorem call_create_atomic_commit (s : ModuleState) (origin dest : AccountId)
    (value endowment : Balance) (gas_limit : Gas) (data : List Nat)
    (code_hash : Nat)
    (execC : Config → AccountId → Balance → List Nat → ExecOutcome)
    (execI : Config → Balance → Nat → List Nat → ExecOutcome)
    (oc oi : ExecOutcome)
    (hgas : ¬ getBalance s origin < gas_limit * s.gasPrice)
    (hoc : execC (Config.preload (buyGasState s origin gas_limit)) dest value data = oc)
    (hoi : execI (Config.preload (buyGasState s origin gas_limit)) endowment code_hash data = oi) :
    AtomicCommitP s origin dest value endowment gas_limit data code_hash execC execI oc oi := by
  unfold AtomicCommitP contractCall contractCreate
  rw [if_neg hgas, if_neg hgas, hoc, hoi]
  obtain ⟨rc, csc, evc, clc, gc⟩ := oc
  obtain ⟨ri, csi, evi, cli, gi⟩ := oi
  cases rc <;> cases ri <;>
    simp [mkCallOutcome, buyGasState, setBalanceSt]

/-- Witness for C1: with a 1000-balance origin, gas limit 10, a succeeding
root `call` outcome and a succeeding root `create` outcome, the claimed
commit/deposit behaviour holds concretely. -/
theorem call_create_atomic_commit_witness :
    (¬ getBalance baseState 0 < 10 * baseState.gasPrice)
    ∧ AtomicCommitP baseState 0 1 5 7 10 [] 9 exExecFnOk exInstFnOk exExecOk exExecOk :=
  ⟨by decide,
   call_create_atomic_commit baseState 0 1 5 7 10 [] 9 exExecFnOk exInstFnOk
     exExecOk exExecOk (by decide) rfl rfl⟩

/-- The property claimed by C2: deferred external dispatches are executed
(each depositing a `Dispatched(who, success)` event) exactly when the root
frame succeeds; on root failure none is executed. -/
def DeferredDispatchP (s : ModuleState) (origin dest : AccountId)
    (value endowment : Balance) (gas_limit : Gas) (data : List Nat)
    (code_hash : Nat)
    (execC : Config → AccountId → Balance → List Nat → ExecOutcome)
    (execI : Config → Balance → Nat → List Nat → ExecOutcome)
    (oc oi : ExecOutcome) : Prop :=
  (∀ e, oc.result = Except.error e →
      (contractCall s origin dest value gas_limit data execC).trace.filter
        Action.isDispatched = []
      ∧ (contractCall s origin dest value gas_limit data execC).state.events = s.events)
  ∧ (oc.result = Except.ok () →
      (contractCall s origin dest value gas_limit data execC).trace.filter
          Action.isDispatched
        = oc.calls.map (fun wc : AccountId × Bool => Action.dispatched wc.1 wc.2)
      ∧ (contractCall s origin dest value gas_limit data execC).state.events
        = s.events ++ oc.events
            ++ oc.calls.map (fun wc : AccountId × Bool => Event.Dispatched wc.1 wc.2))
  ∧ (∀ e, oi.result = Except.error e →
      (contractCreate s origin endowment gas_limit code_hash data execI).trace.filter
        Action.isDispatched = []
      ∧ (contractCreate s origin endowment gas_limit code_hash data execI).state.events
        = s.events)
  ∧ (oi.result = Except.ok () →
      (contractCreate s origin endowment gas_limit code_hash data execI).trace.filter
          Action.isDispatched
        = oi.calls.map (fun wc : AccountId × Bool => Action.dispatched wc.1 wc.2)
      ∧ (contractCreate s origin endowment gas_limit code_hash data execI).state.events
        = s.events ++ oi.events
            ++ oi.calls.map (fun wc : AccountId × Bool => Event.Dispatched wc.1 wc.2))

/-- C2: for top-level `call` and `create` (with the spec-modelled fact
that the execution context discards the buffers of a failed root frame),
the deferred dispatches recorded during execution are executed — each one
depositing its own `Dispatched(who, success)` event — exactly when the
root frame succeeds, and none is executed when it fails. -/
theorem deferred_dispatch_only_on_success (s : ModuleState)
    (origin dest : AccountId) (value endowment : Balance) (gas_limit : Gas)
    (data : List Nat) (code_hash : Nat)
    (execC : Config → AccountId → Balance → List Nat → ExecOutcome)
    (execI : Config → Balance → Nat → List Nat → ExecOutcome)
    (oc oi : ExecOutcome)
    (hgas : ¬ getBalance s origin < gas_limit * s.gasPrice)
    (hoc : execC (Config.preload (buyGasState s origin gas_limit)) dest value data = oc)
    (hoi : execI (Config.preload (buyGasState s origin gas_limit)) endowment code_hash data = oi)
    (hwfc : oc.rollbackOnFailure) (hwfi : oi.rollbackOnFailure) :
    DeferredDispatchP s origin dest value endowment gas_limit data code_hash
      execC execI oc oi := by
  unfold DeferredDispatchP contractCall contractCreate
  rw [if_neg hgas, if_neg hgas, hoc, hoi]
  obtain ⟨rc, csc, evc, clc, gc⟩ := oc
  obtain ⟨ri, csi, evi, cli, gi⟩ := oi
  cases rc with
  | ok u =>
    cases ri with
    | ok v => simp [mkCallOutcome, buyGasState, setBalanceSt]
    | error e =>
      obtain ⟨hcs, hev, hcl⟩ := hwfi e rfl
      subst hcs hev hcl
      simp [mkCallOutcome, buyGasState, setBalanceSt]
  | error e =>
    obtain ⟨hcs, hev, hcl⟩ := hwfc e rfl
    subst hcs hev hcl
    cases ri with
    | ok v => simp [mkCallOutcome, buyGasState, setBalanceSt]
    | error e2 =>
      obtain ⟨hcs2, hev2, hcl2⟩ := hwfi e2 rfl
      subst hcs2 hev2 hcl2
      simp [mkCallOutcome, buyGasState, setBalanceSt]

/-- Witness for C2: with a succeeding root `call` and a failing root
`create` (whose buffers were discarded), the claimed dispatch behaviour
holds concretely. -/
theorem deferred_dispatch_only_on_success_witness :
    (¬ getBalance baseState 0 < 10 * baseState.gasPrice)
    ∧ DeferredDispatchP baseState 0 1 5 7 10 [] 9 exExecFnOk exInstFnErr
        exExecOk exExecErr :=
  ⟨by decide,
   deferred_dispatch_only_on_success baseState 0 1 5 7 10 [] 9
     exExecFnOk exInstFnErr exExecOk exExecErr (by decide) rfl rfl
     (fun e h => by simp [exExecOk] at h)
     (fun e h => ⟨rfl, rfl, rfl⟩)⟩

/-- The property claimed by C4: in gas units, `consumed + refunded` equals
the purchased `gas_limit` (so the refund is non-negative by construction);
the single refund action returns `(gas_limit - consumed) * gas_price`; and
the refund occurs strictly after the overlay commit — the trace splits at
the refund with every commit before it. -/
def GasAccountingP (s : ModuleState) (origin dest : AccountId)
    (value endowment : Balance) (gas_limit : Gas) (data : List Nat)
    (code_hash : Nat)
    (execC : Config → AccountId → Balance → List Nat → ExecOutcome)
    (execI : Config → Balance → Nat → List Nat → ExecOutcome)
    (oc oi : ExecOutcome) : Prop :=
  (oc.gasConsumed + (gas_limit - oc.gasConsumed) = gas_limit
    ∧ (contractCall s origin dest value gas_limit data execC).trace.filter
        Action.isRefund
      = [Action.refund origin ((gas_limit - oc.gasConsumed) * s.gasPrice)]
    ∧ ∃ pre post,
        (contractCall s origin dest value gas_limit data execC).trace
          = pre ++ Action.refund origin ((gas_limit - oc.gasConsumed) * s.gasPrice) :: post
        ∧ pre.filter Action.isRefund = []
        ∧ post.filter Action.isCommit = [])
  ∧ (oi.gasConsumed + (gas_limit - oi.gasConsumed) = gas_limit
    ∧ (contractCreate s origin endowment gas_limit code_hash data execI).trace.filter
        Action.isRefund
      = [Action.refund origin ((gas_limit - oi.gasConsumed) * s.gasPrice)]
    ∧ ∃ pre post,
        (contractCreate s origin endowment gas_limit code_hash data execI).trace
          = pre ++ Action.refund origin ((gas_limit - oi.gasConsumed) * s.gasPrice) :: post
        ∧ pre.filter Action.isRefund = []
        ∧ post.filter Action.isCommit = [])

/-- C4: for top-level `call` and `create` purchased with `gas_limit` (and
the spec-modelled meter invariant that consumption never exceeds the
budget), `consumed_gas + refunded_gas = gas_limit`; the refund action
returns `(gas_limit - consumed) * gas_price` to the payer; and the refund
is performed only after the overlay commit, never before it. -/
theorem gas_accounting (s : ModuleState) (origin dest : AccountId)
    (value endowment : Balance) (gas_limit : Gas) (data : List Nat)
    (code_hash : Nat)
    (execC : Config → AccountId → Balance → List Nat → ExecOutcome)
    (execI : Config → Balance → Nat → List Nat → ExecOutcome)
    (oc oi : ExecOutcome)
    (hgas : ¬ getBalance s origin < gas_limit * s.gasPrice)
    (hoc : execC (Config.preload (buyGasState s origin gas_limit)) dest value data = oc)
    (hoi : execI (Config.preload (buyGasState s origin gas_limit)) endowment code_hash data = oi)
    (hgc : oc.gasConsumed ≤ gas_limit) (hgi : oi.gasConsumed ≤ gas_limit) :
    GasAccountingP s origin dest value endowment gas_limit data code_hash
      execC execI oc oi := by
  unfold GasAccountingP contractCall contractCreate
  rw [if_neg hgas, if_neg hgas, hoc, hoi]
  obtain ⟨rc, csc, evc, clc, gc⟩ := oc
  obtain ⟨ri, csi, evi, cli, gi⟩ := oi
  refine ⟨⟨Nat.add_sub_cancel' hgc, ?_, ?_⟩, ⟨Nat.add_sub_cancel' hgi, ?_, ?_⟩⟩
  · cases rc <;> simp [mkCallOutcome]
  · cases rc with
    | ok u =>
      refine ⟨Action.withdrawGasCost origin (gas_limit * s.gasPrice)
          :: Action.commit csc :: evc.map Action.deposit,
        clc.map (fun wc : AccountId × Bool => Action.dispatched wc.1 wc.2),
        ?_, ?_, ?_⟩ <;> simp [mkCallOutcome]
    | error e =>
      refine ⟨[Action.withdrawGasCost origin (gas_limit * s.gasPrice)],
        clc.map (fun wc : AccountId × Bool => Action.dispatched wc.1 wc.2),
        ?_, ?_, ?_⟩ <;> simp [mkCallOutcome]
  · cases ri <;> simp [mkCallOutcome]
  · cases ri with
    | ok u =>
      refine ⟨Action.withdrawGasCost origin (gas_limit * s.gasPrice)
          :: Action.commit csi :: evi.map Action.deposit,
        cli.map (fun wc : AccountId × Bool => Action.dispatched wc.1 wc.2),
        ?_, ?_, ?_⟩ <;> simp [mkCallOutcome]
    | error e =>
      refine ⟨[Action.withdrawGasCost origin (gas_limit * s.gasPrice)],
        cli.map (fun wc : AccountId × Bool => Action.dispatched wc.1 wc.2),
        ?_, ?_, ?_⟩ <;> simp [mkCallOutcome]

/-- Witness for C4: with gas limit 10 and root outcomes consuming 3 and 4
gas, the gas-accounting property holds concretely. -/
theorem gas_accounting_witness :
    (¬ getBalance baseState 0 < 10 * baseState.gasPrice)
    ∧ exExecOk.gasConsumed ≤ 10 ∧ exExecErr.gasConsumed ≤ 10
    ∧ GasAccountingP baseState 0 1 5 7 10 [] 9 exExecFnOk exInstFnErr
        exExecOk exExecErr :=
  ⟨by decide, by decide, by decide,
   gas_accounting baseState 0 1 5 7 10 [] 9 exExecFnOk exInstFnErr
     exExecOk exExecErr (by decide) rfl rfl (by decide) (by decide)⟩

/-- The property claimed by C5: if the origin cannot cover
`gas_limit * gas_price`, each of the three operations fails with
`InsufficientBalance` having mutated nothing (the output is the initial
state with an empty trace); if the purchase succeeds, the very first
state-mutating step of each operation is the gas withdrawal. -/
def BuyGasFirstP (s : ModuleState) (origin dest : AccountId)
    (value endowment : Balance) (gas_limit : Gas) (data code : List Nat)
    (code_hash : Nat)
    (execC : Config → AccountId → Balance → List Nat → ExecOutcome)
    (execI : Config → Balance → Nat → List Nat → ExecOutcome)
    (saveFn : Schedule → SaveOutcome) : Prop :=
  (getBalance s origin < gas_limit * s.gasPrice →
      contractCall s origin dest value gas_limit data execC
        = { state := s, trace := [], usedConfig := none,
            result := Except.error "InsufficientBalance" }
      ∧ contractCreate s origin endowment gas_limit code_hash data execI
        = { state := s, trace := [], usedConfig := none,
            result := Except.error "InsufficientBalance" }
      ∧ put_code s origin gas_limit code saveFn
        = { state := s, trace := [], usedConfig := none,
            result := Except.error "InsufficientBalance" })
  ∧ (¬ getBalance s origin < gas_limit * s.gasPrice →
      (contractCall s origin dest value gas_limit data execC).trace.head?
        = some (Action.withdrawGasCost origin (gas_limit * s.gasPrice))
      ∧ (contractCreate s origin endowment gas_limit code_hash data execI).trace.head?
        = some (Action.withdrawGasCost origin (gas_limit * s.gasPrice))
      ∧ (put_code s origin gas_limit code saveFn).trace.head?
        = some (Action.withdrawGasCost origin (gas_limit * s.gasPrice)))

/-- C5: for every top-level `call`, `create` or `put_code`, the gas
purchase — withdrawing `gas_limit * gas_price` from the origin — precedes
every other state mutation, and an origin that cannot cover it makes the
operation fail with `InsufficientBalance` with no state mutated at all. -/
theorem buy_gas_first (s : ModuleState) (origin dest : AccountId)
    (value endowment : Balance) (gas_limit : Gas) (data code : List Nat)
    (code_hash : Nat)
    (execC : Config → AccountId → Balance → List Nat → ExecOutcome)
    (execI : Config → Balance → Nat → List Nat → ExecOutcome)
    (saveFn : Schedule → SaveOutcome) :
    BuyGasFirstP s origin dest value endowment gas_limit data code code_hash
      execC execI saveFn := by
  unfold BuyGasFirstP contractCall contractCreate put_code
  constructor
  · intro h
    rw [if_pos h, if_pos h, if_pos h]
    exact ⟨rfl, rfl, rfl⟩
  · intro h
    rw [if_neg h, if_neg h, if_neg h]
    refine ⟨?_, ?_, ?_⟩
    · unfold mkCallOutcome
      split <;> rfl
    · unfold mkCallOutcome
      split <;> rfl
    · rcases hr : saveFn s.currentSchedule with ⟨r, g⟩
      cases r <;> simp [hr]

/-- Witness for C5: an origin with no balance fails the `call` with
`InsufficientBalance` and an untouched state, while the 1000-balance
origin's `call` begins with the gas withdrawal. -/
theorem buy_gas_first_witness :
    (contractCall poorState 0 1 5 10 [] exExecFnOk
      = { state := poorState, trace := [], usedConfig := none,
          result := Except.error "InsufficientBalance" })
    ∧ (contractCall baseState 0 1 5 10 [] exExecFnOk).trace.head?
      = some (Action.withdrawGasCost 0 (10 * baseState.gasPrice)) :=
  ⟨((buy_gas_first poorState 0 1 5 7 10 [] [] 9 exExecFnOk exInstFnOk
      exSaveFnOk).1 (by decide)).1,
   ((buy_gas_first baseState 0 1 5 7 10 [] [] 9 exExecFnOk exInstFnOk
      exSaveFnOk).2 (by decide)).1⟩

/-- The property claimed by C9: the `Config::preload()` snapshot's fields
equal the stored parameter values, and the snapshot a top-level `call` or
`create` takes (after the gas purchase, which touches only balances) is
exactly `Config.preload` of the operation's initial state.  In this
functional embedding the snapshot value is immutable by construction, so
no step of the operation can mutate it. -/
def PreloadP (s : ModuleState) (origin dest : AccountId)
    (value endowment : Balance) (gas_limit : Gas) (data : List Nat)
    (code_hash : Nat)
    (execC : Config → AccountId → Balance → List Nat → ExecOutcome)
    (execI : Config → Balance → Nat → List Nat → ExecOutcome) : Prop :=
  (Config.preload s).schedule = s.currentSchedule
  ∧ (Config.preload s).existential_deposit = s.existentialDeposit
  ∧ (Config.preload s).max_depth = s.maxDepth
  ∧ (Config.preload s).contract_account_instantiate_fee = s.contractFee
  ∧ (Config.preload s).account_create_fee = s.creationFee
  ∧ (Config.preload s).transfer_fee = s.transferFee
  ∧ (Config.preload s).call_base_fee = s.callBaseFee
  ∧ (Config.preload s).instantiate_base_fee = s.createBaseFee
  ∧ (contractCall s origin dest value gas_limit data execC).usedConfig
      = some (Config.preload s)
  ∧ (contractCreate s origin endowment gas_limit code_hash data execI).usedConfig
      = some (Config.preload s)

/-- C9: `Config::preload()` snapshots exactly the stored parameter values
(current schedule, existential deposit, max depth, contract /
account-creation / transfer fees, call and instantiate base fees), and a
top-level `call` or `create` whose gas purchase succeeds uses precisely
that snapshot of its initial state for its whole lifetime. -/
theorem preload_snapshot (s : ModuleState) (origin dest : AccountId)
    (value endowment : Balance) (gas_limit : Gas) (data : List Nat)
    (code_hash : Nat)
    (execC : Config → AccountId → Balance → List Nat → ExecOutcome)
    (execI : Config → Balance → Nat → List Nat → ExecOutcome)
    (hgas : ¬ getBalance s origin < gas_limit * s.gasPrice) :
    PreloadP s origin dest value endowment gas_limit data code_hash execC execI := by
  unfold PreloadP contractCall contractCreate
  rw [if_neg hgas, if_neg hgas]
  refine ⟨rfl, rfl, rfl, rfl, rfl, rfl, rfl, rfl, ?_, ?_⟩ <;>
    (unfold mkCallOutcome; split <;> rfl)

/-- Witness for C9: the snapshot property at the concrete base state. -/
theorem preload_snapshot_witness :
    (¬ getBalance baseState 0 < 10 * baseState.gasPrice)
    ∧ PreloadP baseState 0 1 5 7 10 [] 9 exExecFnOk exInstFnOk :=
  ⟨by decide,
   preload_snapshot baseState 0 1 5 7 10 [] 9 exExecFnOk exInstFnOk (by decide)⟩

/-- The property claimed by C10: `put_code` performs the unused-gas refund
whatever `save_code` returned — the trace always contains exactly the one
refund of `(gas_limit - consumed) * gas_price` — and when the bytecode is
rejected no `CodeStored` event is deposited, the error is returned, and
the event list is untouched. -/
def PutCodeRefundP (s : ModuleState) (origin : AccountId) (gas_limit : Gas)
    (code : List Nat) (saveFn : Schedule → SaveOutcome)
    (so : SaveOutcome) : Prop :=
  (put_code s origin gas_limit code saveFn).trace.filter Action.isRefund
    = [Action.refund origin ((gas_limit - so.gasConsumed) * s.gasPrice)]
  ∧ (∀ e, so.result = Except.error e →
      (put_code s origin gas_limit code saveFn).trace.filter Action.isDeposit = []
      ∧ (put_code s origin gas_limit code saveFn).result = Except.error e
      ∧ (put_code s origin gas_limit code saveFn).state.events = s.events)
  ∧ (∀ h, so.result = Except.ok h →
      (put_code s origin gas_limit code saveFn).result = Except.ok ()
      ∧ (put_code s origin gas_limit code saveFn).state.events
        = s.events ++ [Event.CodeStored h])

/-- C10: in `put_code`, once gas has been bought, `refund_unused_gas` runs
regardless of whether storing the code succeeded: even when the submitted
bytecode is invalid the unused gas is refunded and no `CodeStored` event
is deposited before the error is returned. -/
theorem put_code_always_refunds (s : ModuleState) (origin : AccountId)
    (gas_limit : Gas) (code : List Nat) (saveFn : Schedule → SaveOutcome)
    (so : SaveOutcome)
    (hgas : ¬ getBalance s origin < gas_limit * s.gasPrice)
    (hso : saveFn s.currentSchedule = so) :
    PutCodeRefundP s origin gas_limit code saveFn so := by
  unfold PutCodeRefundP put_code
  rw [if_neg hgas]
  simp only [hso]
  obtain ⟨r, g⟩ := so
  cases r <;> simp [setBalanceSt, buyGasState]

/-- Witness for C10: with invalid bytecode (failing save), the refund is
still performed, no `CodeStored` event is deposited, and the error is
returned. -/
theorem put_code_always_refunds_witness :
    (¬ getBalance baseState 0 < 10 * baseState.gasPrice)
    ∧ PutCodeRefundP baseState 0 10 [0, 1] exSaveFnErr exSaveErr :=
  ⟨by decide,
   put_code_always_refunds baseState 0 10 [0, 1] exSaveFnErr exSaveErr
     (by decide) rfl⟩

/-- Counterexample to C6 as stated: starting from persisted counter 0 and
generating for the same account `[0]`, invocation 1 and invocation
`2 ^ 64 + 1` return the same trie id — even for the injective hash
`fun l => l` — because `wrapping_add` brings the u64 counter back to its
starting value after `2 ^ 64` invocations, so the seed (and hence the
whole hash pre-image) repeats. -/
theorem trie_id_wraps :
    trieIdAt (fun l => l) [0] 0 1 = trieIdAt (fun l => l) [0] 0 (2 ^ 64 + 1) := by
  unfold trieIdAt
  have h2 : counterAfter 0 (2 ^ 64 + 1 - 1) = 0 := by
    rw [counterAfter_eq 0 (by norm_num)]
    norm_num
  rw [h2]
  rfl

/-- C6 amended: two invocations of the trie-id generator return distinct
trie ids for any accounts — provided their invocation positions are not
congruent modulo `2 ^ 64` (the persisted counter is a u64 updated with
`wrapping_add`, so exactly `2 ^ 64` intervening invocations repeat the
seed) — assuming the hash is collision-resistant (injective in the
model).  Distinctness holds even for different account ids because the
8-byte seed suffix pins the split of the pre-image. -/
theorem trie_id_unique (hashFn : List Nat → List Nat)
    (hinj : Function.Injective hashFn) (a1 a2 : List Nat)
    (c0 i j : Nat) (hc : c0 < 2 ^ 64) (hi : 1 ≤ i) (hj : 1 ≤ j)
    (hij : (c0 + i) % 2 ^ 64 ≠ (c0 + j) % 2 ^ 64) :
    trieIdAt hashFn a1 c0 i ≠ trieIdAt hashFn a2 c0 j := by
  have hseed : ∀ k, 1 ≤ k →
      nextCounter (counterAfter c0 (k - 1)) = (c0 + k) % 2 ^ 64 := by
    intro k hk
    have hkk : k - 1 + 1 = k := Nat.succ_pred_eq_of_pos hk
    have h3 := counterAfter_eq c0 hc (k - 1 + 1)
    rw [hkk] at h3
    calc nextCounter (counterAfter c0 (k - 1))
        = counterAfter c0 (k - 1 + 1) := rfl
      _ = (c0 + k) % 2 ^ 64 := by rw [hkk]; exact h3
  intro h
  unfold trieIdAt trie_id at h
  simp only at h
  have hbuf := hinj h
  have hparts := trieIdBuf_inj _ _ _ _ hbuf
  have hseq := toLEBytes8_inj _ _
    (by rw [hseed i hi]; exact Nat.mod_lt _ (by norm_num))
    (by rw [hseed j hj]; exact Nat.mod_lt _ (by norm_num))
    hparts.2
  rw [hseed i hi, hseed j hj] at hseq
  exact hij hseq

/-- Witness for C6 (amended): the identity hash is injective, and with it
invocations 1 and 2 from counter 0 give distinct trie ids even for
different accounts. -/
theorem trie_id_unique_witness :
    Function.Injective (fun l : List Nat => l)
    ∧ trieIdAt (fun l : List Nat => l) [0] 0 1
        ≠ trieIdAt (fun l : List Nat => l) [1] 0 2 :=
  ⟨fun _ _ h => h,
   trie_id_unique (fun l => l) (fun _ _ h => h) [0] [1] 0 1 2
     (by norm_num) (by norm_num) (by norm_num) (by decide)⟩

/-- The concrete `AccountInfo` of the account reaped in the C7
counterexample. -/
def exInfo : AccountInfo := { trie_id := [7], current_mem_stored := 0 }

/-- A state in which account 0 has code hash 5, an `AccountInfo`, and a
non-empty sub-storage trie. -/
def reapState : ModuleState :=
  { baseState with
      codeHashOf := [(0, 5)]
      accountInfoOf := [(0, exInfo)]
      childTries := [([7], [(1, 2)])] }

/-- Counterexample to C7 as stated: after reaping account 0 the stored
`AccountInfo` record is still present — `on_free_balance_zero` removes
the code-hash mapping and kills the sub-storage trie, but never removes
the `AccountInfoOf` entry. -/
theorem on_free_balance_zero_keeps_account_info :
    get_account_info (on_free_balance_zero reapState 0) 0 = some exInfo := by
  decide

/-- C7 amended: when an account is reaped, its code-hash mapping and its
entire sub-storage trie are destroyed, but its stored `AccountInfo`
record is left untouched. -/
theorem on_free_balance_zero_spec (s : ModuleState) (who : AccountId) :
    alookup who (on_free_balance_zero s who).codeHashOf = none
    ∧ (on_free_balance_zero s who).accountInfoOf = s.accountInfoOf
    ∧ (∀ info, get_account_info s who = some info →
        alookup info.trie_id (on_free_balance_zero s who).childTries = none) := by
  unfold on_free_balance_zero get_account_info
  cases h : alookup who s.accountInfoOf with
  | none => simp [h, alookup_aremove]
  | some info => simp [h, alookup_aremove]

/-- Witness for C7 (amended): reaping the concrete account 0 removes its
code hash and its sub-storage trie while its `AccountInfo` survives. -/
theorem on_free_balance_zero_spec_witness :
    alookup 0 (on_free_balance_zero reapState 0).codeHashOf = none
    ∧ alookup exInfo.trie_id (on_free_balance_zero reapState 0).childTries = none :=
  ⟨(on_free_balance_zero_spec reapState 0).1,
   (on_free_balance_zero_spec reapState 0).2.2 exInfo rfl⟩

/-- C8: the contract address computation is deterministic — it is a pure
function of exactly the code hash, the constructor input data and the
origin account: two evaluations of `contract_address_for` on equal inputs
return equal addresses. -/
theorem contract_address_deterministic (hashFn : List Nat → List Nat)
    (ch1 ch2 d1 d2 o1 o2 : List Nat)
    (hch : ch1 = ch2) (hd : d1 = d2) (ho : o1 = o2) :
    contract_address_for hashFn ch1 d1 o1 = contract_address_for hashFn ch2 d2 o2 := by
  subst hch hd ho
  rfl

/-- Witness for C8: two evaluations on concretely equal inputs agree. -/
theorem contract_address_deterministic_witness :
    ([1] : List Nat) = [1] ∧ ([2] : List Nat) = [2] ∧ ([3] : List Nat) = [3]
    ∧ contract_address_for (fun l => l) [1] [2] [3]
        = contract_address_for (fun l => l) [1] [2] [3] :=
  ⟨rfl, rfl, rfl,
   contract_address_deterministic (fun l => l) [1] [1] [2] [2] [3] [3] rfl rfl rfl⟩

end Contract
